import Mathlib

/-!
Shallow embedding of `query_download.py`, the Google Trends search query
downloader.  Pure string and list manipulation is translated directly from
the source.  The browser driver, the wall clock and the filesystem are
external collaborators of the program; they enter the embedding as explicit
oracle values (a `StepResult` outcome per externally effectful step, a
`Timestamp` for `datetime.now()`, and a list of existing directories for
`os.path.isdir`).
-/

/-- Model of Python `str.isalnum` on a single character.  Python `isalnum`
is Unicode aware.  The model is exact on every code point below `0x100`:
on ASCII it is `[0-9A-Za-z]`, and on the Latin-1 supplement it is true
exactly for the feminine and masculine ordinal indicators, the superscript
and fraction numerals, the micro sign, and the Latin-1 letters (all of
`0xC0`–`0xFF` except the multiplication sign `0xD7` and the division sign
`0xF7`).  Code points at `0x100` and above are never evaluated by this
development. -/
def pyIsAlnum (c : Char) : Bool :=
  if c.toNat < 0x80 then c.isAlphanum
  else
    c.toNat == 0xAA || c.toNat == 0xB2 || c.toNat == 0xB3 || c.toNat == 0xB5 ||
    c.toNat == 0xB9 || c.toNat == 0xBA || c.toNat == 0xBC || c.toNat == 0xBD ||
    c.toNat == 0xBE ||
    (0xC0 ≤ c.toNat && c.toNat ≤ 0xFF && c.toNat != 0xD7 && c.toNat != 0xF7)

/-- The character filter `c.isalnum() or c in ["-", "_"]` that appears in
both `__gen_filepath` and `__gen_query_folder`. -/
def sanitizeKeep (c : Char) : Bool := pyIsAlnum c || c == '-' || c == '_'

/-- The label derivation `"".join(c for c in query if c.isalnum() or c in
["-", "_"])` shared by `__gen_filepath` and `__gen_query_folder`. -/
def sanitize (s : String) : String := ⟨s.data.filter sanitizeKeep⟩

/-- Whether a string starts with a slash (Python `b.startswith("/")`,
used by `posixpath.join`). -/
def startsWithSlash (s : String) : Bool :=
  match s.data with
  | [] => false
  | c :: _ => c == '/'

/-- Whether a string ends with a slash (Python `a.endswith("/")`,
used by `posixpath.join`). -/
def endsWithSlash (s : String) : Bool :=
  match s.data.getLast? with
  | some c => c == '/'
  | none => false

/-- POSIX `os.path.join` on two components, exactly the `posixpath.join`
algorithm restricted to one joined component: an absolute second component
replaces the first, otherwise the two are concatenated with a separating
slash unless the first is empty or already ends with a slash. -/
def posixJoin (a b : String) : String :=
  if startsWithSlash b then b
  else if a == "" || endsWithSlash a then a ++ b
  else a ++ "/" ++ b

/-- Drop one trailing slash.  `os.path.isdir` is insensitive to a trailing
slash: `"out/"` and `"out"` denote the same directory entry. -/
def stripTrailingSlash (s : String) : String :=
  if endsWithSlash s then ⟨s.data.dropLast⟩ else s

/-- Model of `os.path.isdir` against an explicit list of the directories
that currently exist (each stored without a trailing slash). -/
def dirExists (dirs : List String) (p : String) : Bool :=
  dirs.contains (stripTrailingSlash p)

/-- One wall-clock reading of `datetime.now()` at second resolution. -/
structure Timestamp where
  year : Nat
  month : Nat
  day : Nat
  hour : Nat
  minute : Nat
  second : Nat
deriving DecidableEq

/-- Two-digit zero-padded decimal field of `strftime` (`%m`, `%d`, `%H`,
`%M`, `%S`).  Exact for field values below `100`, which every field of a
real `datetime.now()` reading satisfies. -/
def pad2 (n : Nat) : String := ⟨[Nat.digitChar (n / 10 % 10), Nat.digitChar (n % 10)]⟩

/-- Four-digit decimal year field of `strftime` (`%Y`).  Exact for years
between `1000` and `9999`, which every `datetime.now()` reading
satisfies. -/
def pad4 (n : Nat) : String :=
  ⟨[Nat.digitChar (n / 1000 % 10), Nat.digitChar (n / 100 % 10),
    Nat.digitChar (n / 10 % 10), Nat.digitChar (n % 10)]⟩

/-- `datetime.now().strftime("%Y%m%d%H%M%S")`: the timestamp used in
generated file names, year month day hour minute second with no
separators. -/
def strftimeYmdHMS (t : Timestamp) : String :=
  pad4 t.year ++ pad2 t.month ++ pad2 t.day ++ pad2 t.hour ++ pad2 t.minute ++ pad2 t.second

/-- Field bounds satisfied by every real `datetime.now()` reading; under
these bounds the zero-padded rendering of each field is exact. -/
def validTs (t : Timestamp) : Prop :=
  1000 ≤ t.year ∧ t.year < 10000 ∧ t.month < 100 ∧ t.day < 100 ∧
  t.hour < 100 ∧ t.minute < 100 ∧ t.second < 100

/-- The file name `f"{query_name}_{timestamp}.{ext}"` built by
`__gen_filepath`. -/
def exportName (query ext : String) (now : Timestamp) : String :=
  sanitize query ++ "_" ++ strftimeYmdHMS now ++ "." ++ ext

/-- `__gen_filepath(query, output_dir, ext)`: the sanitized query label and
the `datetime.now()` timestamp joined under `output_dir`. -/
def gen_filepath (query output_dir ext : String) (now : Timestamp) : String :=
  posixJoin output_dir (exportName query ext now)

/-- `__gen_query_folder(query)` against an explicit directory list.
Returns the directory list after the call, whether `mkdir` was invoked,
and the returned path.  The source computes the sanitized label, joins it
under `self.output_dir`, creates the directory only when `os.path.isdir`
is false, and returns the joined path. -/
def gen_query_folder (dirs : List String) (output_dir query : String) :
    List String × Bool × String :=
  let p := posixJoin output_dir (sanitize query)
  if dirExists dirs p then (dirs, false, p)
  else (stripTrailingSlash p :: dirs, true, p)

/-- The dataclass `KeywordValueEntry` for related queries. -/
structure KeywordValueEntry where
  keyword : String
  value : String
deriving DecidableEq

/-- The row loop of `__parse_csv`.  The Boolean argument is `found_rising`.
Before the marker, rows are scanned for a non-empty row whose first column
is `"RISING"`.  After the marker, an empty row stops collection, and a
non-empty row contributes `(row[0], row[1])`; on a one-column row the
subscript `row[1]` is out of range, so Python raises `IndexError`,
modelled as `Except.error`. -/
def parseLoop : List (List String) → Bool → Except String (List KeywordValueEntry)
  | [], _ => .ok []
  | row :: rest, true =>
    match row with
    | [] => .ok []
    | [_] => .error "list index out of range"
    | k :: v :: _ =>
      match parseLoop rest true with
      | .ok tl => .ok (⟨k, v⟩ :: tl)
      | .error e => .error e
  | row :: rest, false =>
    match row with
    | r0 :: _ => if r0 == "RISING" then parseLoop rest true else parseLoop rest false
    | [] => parseLoop rest false

/-- `__parse_csv` applied to the list of rows read from the CSV file. -/
def parse_csv (rows : List (List String)) : Except String (List KeywordValueEntry) :=
  parseLoop rows false

/-- Whether an `Except` value is a normal return (no exception raised). -/
def isOkB (e : Except String (List KeywordValueEntry)) : Bool :=
  match e with
  | .ok _ => true
  | .error _ => false

/-- Outcome of one externally effectful step of the program: a normal
return, a raised exception (`except Exception`), or a raised
`KeyboardInterrupt`. -/
inductive StepResult (α : Type) where
  | ok : α → StepResult α
  | exn : StepResult α
  | interrupt : StepResult α
deriving DecidableEq

/-- Observable side effects of the program, in order of occurrence:
page navigation, console messages, the `print(data)` call, the
`print_exc()` traceback, directory creation, the JSON dump, one attempted
timeline export per keyword, and the `driver.quit()` release of the
browser session. -/
inductive Event where
  | navigate : Event
  | msg : String → Event
  | printData : Event
  | traceback : Event
  | mkdirEv : String → Event
  | jsonWriteEv : String → Event
  | timelineAttempt : String → Event
  | quit : Event
deriving DecidableEq

/-- Environment of one export task: whether the five-second wait for the
search input field succeeds when the remaining retry budget has the given
value, and the outcome of the stages after a successful input wait (typing,
submission, export-control wait, click, the unbounded file poll and the
rename), compressed into one oracle step whose normal return carries the
final renamed path. -/
structure TaskEnv where
  inputWaitOk : Nat → Bool
  rest : StepResult String

/-- `RETRY_COUNT`, the default number of retries when the page does not
load. -/
def RETRY_COUNT : Int := 3

/-- `__query_downloader_task(query, retry_count)`.  A non-positive budget
prints the too-many-retries message and returns `None`; otherwise the task
navigates to `BASE_URL`, waits for the input field, and on a wait timeout
prints the failure message and reinvokes itself with the budget decreased
by one.  After a successful wait the remaining stages run: the oracle
either returns the renamed path (printed in the success message), raises,
or is interrupted. -/
def query_downloader_task (env : TaskEnv) (retry_count : Int) :
    List Event × StepResult (Option String) :=
  if retry_count ≤ 0 then
    ([Event.msg "\nToo many retries, quitting..."], .ok none)
  else
    if env.inputWaitOk retry_count.toNat then
      match env.rest with
      | .ok path =>
        ([Event.navigate, Event.msg ("\nSuccessfully downloaded: " ++ path)], .ok (some path))
      | .exn => ([Event.navigate], .exn)
      | .interrupt => ([Event.navigate], .interrupt)
    else
      (Event.navigate :: Event.msg "\nPage failed to load, retrying..." ::
        (query_downloader_task env (retry_count - 1)).1,
       (query_downloader_task env (retry_count - 1)).2)
termination_by retry_count.toNat
decreasing_by all_goals omega

/-- `__timeline_downloader_task(query, output_dir, retry_count)`: the same
retry shape as `__query_downloader_task` (the two differ only in the later
stages, compressed here into the `rest` oracle). -/
def timeline_downloader_task (env : TaskEnv) (retry_count : Int) :
    List Event × StepResult (Option String) :=
  if retry_count ≤ 0 then
    ([Event.msg "\nToo many retries, quitting..."], .ok none)
  else
    if env.inputWaitOk retry_count.toNat then
      match env.rest with
      | .ok path =>
        ([Event.navigate, Event.msg ("\nSuccessfully downloaded: " ++ path)], .ok (some path))
      | .exn => ([Event.navigate], .exn)
      | .interrupt => ([Event.navigate], .interrupt)
    else
      (Event.navigate :: Event.msg "\nPage failed to load, retrying..." ::
        (timeline_downloader_task env (retry_count - 1)).1,
       (timeline_downloader_task env (retry_count - 1)).2)
termination_by retry_count.toNat
decreasing_by all_goals omega

/-- Terminal condition of one `run` invocation: the five ways control can
leave `run`.  The first four leave through the protected block (the
`try` at the top of `run`) and therefore through its `finally`; the last
two model an exception or interrupt raised before the protected block is
entered, which escapes `run` unhandled. -/
inductive RunResult where
  | finished : RunResult
  | emptyData : RunResult
  | taskError : RunResult
  | interrupted : RunResult
  | escaped : RunResult
  | escapedInterrupt : RunResult
deriving DecidableEq

/-- Environment of one `run(query)` invocation: the outcome of
`maximize_window` (which the source calls after creating the driver but
before entering the protected block), the outcome of the related-queries
task, the rows of the CSV file it downloaded, the `datetime.now()` reading
used for the JSON path, the outcome of the JSON dump, the outcome of the
timeline task per keyword, and the directories existing when `run`
starts. -/
structure RunEnv where
  maximize : StepResult Unit
  relatedTask : StepResult (Option String)
  csvRows : List (List String)
  now : Timestamp
  jsonOutcome : StepResult Unit
  timeline : String → StepResult (Option String)
  dirs : List String

/-- The per-keyword loop `for entry in data: __timeline_downloader_task
(entry.keyword, query_output_dir)`.  The returned value of each task is
discarded, so a task that returns (with a path or with `None`) lets the
loop continue; a task that raises or is interrupted stops the loop and
propagates. -/
def timelineLoop (tl : String → StepResult (Option String)) :
    List KeywordValueEntry → List Event × StepResult Unit
  | [] => ([], .ok ())
  | e :: rest =>
    match tl e.keyword with
    | .ok _ =>
      (Event.timelineAttempt e.keyword :: (timelineLoop tl rest).1,
       (timelineLoop tl rest).2)
    | .exn => ([Event.timelineAttempt e.keyword], .exn)
    | .interrupt => ([Event.timelineAttempt e.keyword], .interrupt)

/-- The protected block of `run`: the related-queries task, the parse, the
empty-data check, `print(data)`, the per-query folder, the JSON dump, the
timeline loop, and the two `except` handlers.  When the related task
returns `None`, the source passes `None` to `open`, which raises
`TypeError`, caught by `except Exception`.  A parse error (`IndexError`)
is likewise caught by `except Exception`. -/
def runBody (env : RunEnv) (query output_dir : String) : List Event × RunResult :=
  match env.relatedTask with
  | .interrupt => ([], .interrupted)
  | .exn => ([Event.traceback], .taskError)
  | .ok none => ([Event.traceback], .taskError)
  | .ok (some _) =>
    match parse_csv env.csvRows with
    | .error _ => ([Event.traceback], .taskError)
    | .ok data =>
      if data.isEmpty then
        ([Event.msg "\nError retrieving data..."], .emptyData)
      else
        let g := gen_query_folder env.dirs output_dir query
        let mkEvs := if g.2.1 then [Event.mkdirEv g.2.2] else []
        let jsonPath := gen_filepath query output_dir "json" env.now
        match env.jsonOutcome with
        | .interrupt => (Event.printData :: mkEvs, .interrupted)
        | .exn => (Event.printData :: mkEvs ++ [Event.traceback], .taskError)
        | .ok _ =>
          match timelineLoop env.timeline data with
          | (tevs, .ok _) =>
            (Event.printData :: mkEvs ++ Event.jsonWriteEv jsonPath :: tevs ++
              [Event.msg "\nFinished!"], .finished)
          | (tevs, .exn) =>
            (Event.printData :: mkEvs ++ Event.jsonWriteEv jsonPath :: tevs ++
              [Event.traceback], .taskError)
          | (tevs, .interrupt) =>
            (Event.printData :: mkEvs ++ Event.jsonWriteEv jsonPath :: tevs, .interrupted)

/-- `run(query)`.  The driver is created, the window is maximized, and only
then is the protected block entered; its `finally` releases the browser
session with `driver.quit()` on every exit from the block.  An exception
or interrupt raised by `maximize_window` occurs before the `try` and
escapes `run` without the release. -/
def run (env : RunEnv) (query output_dir : String) : List Event × RunResult :=
  match env.maximize with
  | .exn => ([], .escaped)
  | .interrupt => ([], .escapedInterrupt)
  | .ok _ =>
    ((runBody env query output_dir).1 ++ [Event.quit],
     (runBody env query output_dir).2)

/-! ### Parser lemmas -/

lemma parseLoop_skip (pre : List (List String))
    (h : ∀ r ∈ pre, r.head? ≠ some "RISING") (rows : List (List String)) :
    parseLoop (pre ++ rows) false = parseLoop rows false := by
  induction pre with
  | nil => rfl
  | cons r pre ih =>
    have hr := h r (List.mem_cons_self r pre)
    have ih2 := ih (fun x hx => h x (List.mem_cons_of_mem r hx))
    cases r with
    | nil => simpa [parseLoop] using ih2
    | cons c cs =>
      have hc : (c == "RISING") = false := by
        simp only [List.head?_cons, ne_eq, Option.some.injEq] at hr
        simpa using hr
      simpa [parseLoop, hc] using ih2

lemma parseLoop_collect (body : List (List String))
    (hb : ∀ r ∈ body, 2 ≤ r.length) (tail : List (List String))
    (ht : tail = [] ∨ ∃ rest, tail = [] :: rest) :
    parseLoop (body ++ tail) true =
      .ok (body.map fun r => ⟨r.headD "", r.tail.headD ""⟩) := by
  induction body with
  | nil =>
    rcases ht with h | ⟨rest, h⟩ <;> subst h <;> simp [parseLoop]
  | cons r body ih =>
    have h2 := hb r (List.mem_cons_self r body)
    have ih2 := ih (fun x hx => hb x (List.mem_cons_of_mem r hx))
    match r, h2 with
    | k :: v :: r2, _ =>
      simp [parseLoop, ih2]

/-- C1: for a CSV whose rows are a preamble without a `RISING` first
column, then a marker row whose first column is `"RISING"`, then
keyword/value rows of at least two columns, terminated by an empty row or
end of file, `__parse_csv` returns exactly the ordered `(first column,
second column)` pairs of the rows between the marker and the terminator,
ignoring every preamble row. -/
theorem parse_csv_rising (pre body tail : List (List String)) (marker : List String)
    (hpre : ∀ r ∈ pre, r.head? ≠ some "RISING")
    (hm : marker.head? = some "RISING")
    (hb : ∀ r ∈ body, 2 ≤ r.length)
    (ht : tail = [] ∨ ∃ rest, tail = [] :: rest) :
    parse_csv (pre ++ marker :: (body ++ tail)) =
      .ok (body.map fun r => ⟨r.headD "", r.tail.headD ""⟩) := by
  unfold parse_csv
  rw [parseLoop_skip pre hpre]
  cases marker with
  | nil => simp at hm
  | cons c cs =>
    have hc : c = "RISING" := by simpa using hm
    simp [parseLoop, hc, parseLoop_collect body hb tail ht]

/-- Witness for C1 at the concrete input named in the claim. -/
theorem parse_csv_rising_witness :
    parse_csv [["RISING"], ["dog", "100"], ["cat", "90"], []] =
      .ok [⟨"dog", "100"⟩, ⟨"cat", "90"⟩] := by
  have h := parse_csv_rising [] [["dog", "100"], ["cat", "90"]] [[]] ["RISING"]
    (by simp) rfl (by decide) (Or.inr ⟨[], rfl⟩)
  simpa using h

/-- C2 counterexample: a one-column row after the marker makes `row[1]`
raise `IndexError`; `__parse_csv` does not return a sequence on this
input, so it is not total on all malformed inputs. -/
theorem parse_csv_short_row_cex :
    parse_csv [["RISING"], ["dog"]] = .error "list index out of range" ∧
    isOkB (parse_csv [["RISING"], ["dog"]]) = false := by
  exact ⟨rfl, rfl⟩

/-- C2 (amended): a CSV with no `RISING` marker row parses to the empty
sequence without raising, and parsing returns normally whenever every row
between the marker and the terminating empty row (or end of file) has at
least two columns; a one-column row in that region raises instead. -/
theorem parse_csv_total (rows : List (List String)) :
    ((∀ r ∈ rows, r.head? ≠ some "RISING") → parse_csv rows = .ok []) ∧
    (∀ (pre body tail : List (List String)) (marker : List String),
      rows = pre ++ marker :: (body ++ tail) →
      (∀ r ∈ pre, r.head? ≠ some "RISING") →
      marker.head? = some "RISING" →
      (∀ r ∈ body, 2 ≤ r.length) →
      (tail = [] ∨ ∃ rest, tail = [] :: rest) →
      isOkB (parse_csv rows) = true) := by
  constructor
  · intro h
    have := parseLoop_skip rows h []
    simpa [parse_csv] using this
  · intro pre body tail marker hrows hpre hm hb ht
    subst hrows
    unfold parse_csv
    rw [parseLoop_skip pre hpre]
    cases marker with
    | nil => simp at hm
    | cons c cs =>
      have hc : c = "RISING" := by simpa using hm
      simp [parseLoop, hc, parseLoop_collect body hb tail ht, isOkB]

/-- Witness for C2 at concrete inputs: a marker-free CSV parses to the
empty sequence, and a well-formed CSV parses without raising. -/
theorem parse_csv_total_witness :
    parse_csv [["TOP"], ["x", "1"]] = .ok [] ∧
    isOkB (parse_csv [["TOP"], ["RISING"], ["dog", "100"], []]) = true := by
  constructor
  · exact (parse_csv_total [["TOP"], ["x", "1"]]).1 (by decide)
  · exact (parse_csv_total [["TOP"], ["RISING"], ["dog", "100"], []]).2
      [["TOP"]] [["dog", "100"]] [[]] ["RISING"] rfl (by decide) rfl (by decide)
      (Or.inr ⟨[], rfl⟩)

/-! ### Retry exhaustion lemmas -/

lemma query_task_all_fail (env : TaskEnv) (h : ∀ i, env.inputWaitOk i = false)
    (n : Nat) :
    (query_downloader_task env n).2 = .ok none ∧
    (query_downloader_task env n).1.count Event.navigate = n ∧
    Event.msg "\nToo many retries, quitting..." ∈ (query_downloader_task env n).1 := by
  induction n with
  | zero =>
    rw [show ((0 : Nat) : Int) = 0 from rfl]
    rw [query_downloader_task]
    simp
  | succ n ih =>
    rw [query_downloader_task]
    have hpos : ¬ ((n + 1 : Nat) : Int) ≤ 0 := by omega
    rw [if_neg hpos, h _]
    have hsub : ((n + 1 : Nat) : Int) - 1 = (n : Int) := by push_cast; ring
    simp only [Bool.false_eq_true, if_false, hsub]
    refine ⟨ih.1, ?_, ?_⟩
    · simp [List.count_cons, ih.2.1]
    · exact List.mem_cons_of_mem _ (List.mem_cons_of_mem _ ih.2.2)

lemma timeline_task_all_fail (env : TaskEnv) (h : ∀ i, env.inputWaitOk i = false)
    (n : Nat) :
    (timeline_downloader_task env n).2 = .ok none ∧
    (timeline_downloader_task env n).1.count Event.navigate = n ∧
    Event.msg "\nToo many retries, quitting..." ∈ (timeline_downloader_task env n).1 := by
  induction n with
  | zero =>
    rw [show ((0 : Nat) : Int) = 0 from rfl]
    rw [timeline_downloader_task]
    simp
  | succ n ih =>
    rw [timeline_downloader_task]
    have hpos : ¬ ((n + 1 : Nat) : Int) ≤ 0 := by omega
    rw [if_neg hpos, h _]
    have hsub : ((n + 1 : Nat) : Int) - 1 = (n : Int) := by push_cast; ring
    simp only [Bool.false_eq_true, if_false, hsub]
    refine ⟨ih.1, ?_, ?_⟩
    · simp [List.count_cons, ih.2.1]
    · exact List.mem_cons_of_mem _ (List.mem_cons_of_mem _ ih.2.2)

/-- C4: when the input-element wait times out on every attempt, both export
task variants terminate (the definitions are total, the retry recursion
decreasing on the budget) after exactly `retry_count` page-load attempts,
print the too-many-retries message, and return no result. -/
theorem retry_exhaustion (env : TaskEnv) (h : ∀ i, env.inputWaitOk i = false)
    (n : Nat) :
    ((query_downloader_task env n).2 = .ok none ∧
     (query_downloader_task env n).1.count Event.navigate = n ∧
     Event.msg "\nToo many retries, quitting..." ∈ (query_downloader_task env n).1) ∧
    ((timeline_downloader_task env n).2 = .ok none ∧
     (timeline_downloader_task env n).1.count Event.navigate = n ∧
     Event.msg "\nToo many retries, quitting..." ∈ (timeline_downloader_task env n).1) :=
  ⟨query_task_all_fail env h n, timeline_task_all_fail env h n⟩

/-- Witness for C4 at the default retry budget of three. -/
theorem retry_exhaustion_witness :
    ((query_downloader_task ⟨fun _ => false, .ok ""⟩ ((3 : Nat) : Int)).2 = .ok none ∧
     (query_downloader_task ⟨fun _ => false, .ok ""⟩ ((3 : Nat) : Int)).1.count
       Event.navigate = 3 ∧
     Event.msg "\nToo many retries, quitting..." ∈
       (query_downloader_task ⟨fun _ => false, .ok ""⟩ ((3 : Nat) : Int)).1) ∧
    ((timeline_downloader_task ⟨fun _ => false, .ok ""⟩ ((3 : Nat) : Int)).2 = .ok none ∧
     (timeline_downloader_task ⟨fun _ => false, .ok ""⟩ ((3 : Nat) : Int)).1.count
       Event.navigate = 3 ∧
     Event.msg "\nToo many retries, quitting..." ∈
       (timeline_downloader_task ⟨fun _ => false, .ok ""⟩ ((3 : Nat) : Int)).1) :=
  retry_exhaustion ⟨fun _ => false, .ok ""⟩ (fun _ => rfl) 3

/-- C5 counterexample: Python `str.isalnum` is Unicode aware, so the
character `é` (code point `0xE9`, a Latin-1 letter) passes the filter and
appears in the derived label, which therefore is not restricted to
`[A-Za-z0-9_-]`. -/
theorem sanitize_charset_cex :
    sanitize "café" = "café" ∧
    ¬ (∀ c ∈ (sanitize "café").data, c.isAlphanum = true ∨ c = '-' ∨ c = '_') := by
  constructor
  · rfl
  · decide

/-- C5 (amended): for every input string of ASCII characters the derived
label contains only characters from `[A-Za-z0-9_-]`, and label derivation
is a deterministic function of the input; non-ASCII alphanumeric
characters pass the filter unchanged. -/
theorem sanitize_ascii (s : String) (h : ∀ c ∈ s.data, c.toNat < 0x80) :
    (∀ c ∈ (sanitize s).data, c.isAlphanum = true ∨ c = '-' ∨ c = '_') ∧
    (∀ t : String, s = t → sanitize s = sanitize t) := by
  constructor
  · intro c hc
    have hc2 : c ∈ s.data.filter sanitizeKeep := hc
    obtain ⟨hmem, hkeep⟩ := List.mem_filter.mp hc2
    have hlt := h c hmem
    unfold sanitizeKeep pyIsAlnum at hkeep
    rw [if_pos hlt] at hkeep
    simp only [Bool.or_eq_true, beq_iff_eq] at hkeep
    tauto
  · intro t ht
    rw [ht]

/-- Witness for C5 at a concrete ASCII input. -/
theorem sanitize_ascii_witness :
    (∀ c ∈ (sanitize "a b-c_1!").data, c.isAlphanum = true ∨ c = '-' ∨ c = '_') ∧
    (∀ t : String, "a b-c_1!" = t → sanitize "a b-c_1!" = sanitize t) :=
  sanitize_ascii "a b-c_1!" (by decide)

/-! ### String and timestamp lemmas -/

lemma strData_append (a b : String) : (a ++ b).data = a.data ++ b.data := by
  cases a
  cases b
  rfl

lemma strExt {a b : String} (h : a.data = b.data) : a = b := by
  cases a
  cases b
  exact congrArg String.mk h

lemma strftime_data (t : Timestamp) :
    (strftimeYmdHMS t).data =
      [Nat.digitChar (t.year / 1000 % 10), Nat.digitChar (t.year / 100 % 10),
       Nat.digitChar (t.year / 10 % 10), Nat.digitChar (t.year % 10),
       Nat.digitChar (t.month / 10 % 10), Nat.digitChar (t.month % 10),
       Nat.digitChar (t.day / 10 % 10), Nat.digitChar (t.day % 10),
       Nat.digitChar (t.hour / 10 % 10), Nat.digitChar (t.hour % 10),
       Nat.digitChar (t.minute / 10 % 10), Nat.digitChar (t.minute % 10),
       Nat.digitChar (t.second / 10 % 10), Nat.digitChar (t.second % 10)] := rfl

lemma strftime_length (t : Timestamp) : (strftimeYmdHMS t).length = 14 := rfl

lemma digitChar_inj : ∀ a, a < 10 → ∀ b, b < 10 →
    Nat.digitChar a = Nat.digitChar b → a = b := by decide

lemma digitChar_isDigit : ∀ a, a < 10 → (Nat.digitChar a).isDigit = true := by decide

lemma strftime_digits (t : Timestamp) :
    ∀ c ∈ (strftimeYmdHMS t).data, c.isDigit = true := by
  intro c hc
  rw [strftime_data] at hc
  simp only [List.mem_cons, List.not_mem_nil, or_false] at hc
  rcases hc with rfl | rfl | rfl | rfl | rfl | rfl | rfl | rfl | rfl | rfl | rfl | rfl | rfl | rfl <;>
    exact digitChar_isDigit _ (Nat.mod_lt _ (by norm_num))

lemma strftime_inj {t1 t2 : Timestamp} (h1 : validTs t1) (h2 : validTs t2)
    (h : strftimeYmdHMS t1 = strftimeYmdHMS t2) : t1 = t2 := by
  simp only [validTs] at h1 h2
  obtain ⟨hy1, hy1b, hmo1, hdd1, hhr1, hmi1, hse1⟩ := h1
  obtain ⟨hy2, hy2b, hmo2, hdd2, hhr2, hmi2, hse2⟩ := h2
  have hd := congrArg String.data h
  rw [strftime_data, strftime_data] at hd
  simp only [List.cons.injEq, and_true] at hd
  obtain ⟨e1, e2, e3, e4, e5, e6, e7, e8, e9, e10, e11, e12, e13, e14⟩ := hd
  have q1 := digitChar_inj _ (Nat.mod_lt _ (by norm_num)) _ (Nat.mod_lt _ (by norm_num)) e1
  have q2 := digitChar_inj _ (Nat.mod_lt _ (by norm_num)) _ (Nat.mod_lt _ (by norm_num)) e2
  have q3 := digitChar_inj _ (Nat.mod_lt _ (by norm_num)) _ (Nat.mod_lt _ (by norm_num)) e3
  have q4 := digitChar_inj _ (Nat.mod_lt _ (by norm_num)) _ (Nat.mod_lt _ (by norm_num)) e4
  have q5 := digitChar_inj _ (Nat.mod_lt _ (by norm_num)) _ (Nat.mod_lt _ (by norm_num)) e5
  have q6 := digitChar_inj _ (Nat.mod_lt _ (by norm_num)) _ (Nat.mod_lt _ (by norm_num)) e6
  have q7 := digitChar_inj _ (Nat.mod_lt _ (by norm_num)) _ (Nat.mod_lt _ (by norm_num)) e7
  have q8 := digitChar_inj _ (Nat.mod_lt _ (by norm_num)) _ (Nat.mod_lt _ (by norm_num)) e8
  have q9 := digitChar_inj _ (Nat.mod_lt _ (by norm_num)) _ (Nat.mod_lt _ (by norm_num)) e9
  have q10 := digitChar_inj _ (Nat.mod_lt _ (by norm_num)) _ (Nat.mod_lt _ (by norm_num)) e10
  have q11 := digitChar_inj _ (Nat.mod_lt _ (by norm_num)) _ (Nat.mod_lt _ (by norm_num)) e11
  have q12 := digitChar_inj _ (Nat.mod_lt _ (by norm_num)) _ (Nat.mod_lt _ (by norm_num)) e12
  have q13 := digitChar_inj _ (Nat.mod_lt _ (by norm_num)) _ (Nat.mod_lt _ (by norm_num)) e13
  have q14 := digitChar_inj _ (Nat.mod_lt _ (by norm_num)) _ (Nat.mod_lt _ (by norm_num)) e14
  have hy : t1.year = t2.year := by omega
  have hmo : t1.month = t2.month := by omega
  have hdd : t1.day = t2.day := by omega
  have hhr : t1.hour = t2.hour := by omega
  have hmi : t1.minute = t2.minute := by omega
  have hse : t1.second = t2.second := by omega
  cases t1
  cases t2
  simp_all

lemma sanitize_all_keep (q : String) :
    ∀ c ∈ (sanitize q).data, sanitizeKeep c = true :=
  fun _ hc => (List.mem_filter.mp hc).2

lemma keep_ne_slash {c : Char} (h : sanitizeKeep c = true) : c ≠ '/' := by
  intro hc
  subst hc
  revert h
  decide

lemma exportName_noSlashStart (q e : String) (t : Timestamp) :
    startsWithSlash (exportName q e t) = false := by
  unfold startsWithSlash
  have hd : (exportName q e t).data =
      (sanitize q).data ++ "_".data ++ (strftimeYmdHMS t).data ++ ".".data ++ e.data := by
    simp only [exportName, strData_append]
  rw [hd]
  cases hq : (sanitize q).data with
  | nil => rfl
  | cons c cs =>
    have hc : c ≠ '/' := keep_ne_slash (sanitize_all_keep q c (by rw [hq]; exact List.mem_cons_self c cs))
    simpa using hc

lemma posixJoin_eq (dir n : String) (h0 : dir ≠ "") (h1 : endsWithSlash dir = false)
    (h2 : startsWithSlash n = false) : posixJoin dir n = dir ++ "/" ++ n := by
  unfold posixJoin
  rw [h2, h1]
  have hb : (dir == "") = false := beq_eq_false_iff_ne.mpr h0
  rw [hb]
  simp

lemma posixJoin_cancel {dir n1 n2 : String} (h1 : startsWithSlash n1 = false)
    (h2 : startsWithSlash n2 = false) (h : posixJoin dir n1 = posixJoin dir n2) :
    n1 = n2 := by
  unfold posixJoin at h
  rw [h1, h2] at h
  simp only [Bool.false_eq_true, if_false] at h
  by_cases hc : (dir == "" || endsWithSlash dir) = true
  · rw [if_pos hc, if_pos hc] at h
    have hd := congrArg String.data h
    rw [strData_append, strData_append] at hd
    exact strExt (List.append_cancel_left hd)
  · rw [if_neg hc, if_neg hc] at h
    have hd := congrArg String.data h
    simp only [strData_append, List.append_assoc] at hd
    exact strExt (List.append_cancel_left (List.append_cancel_left hd))

lemma exportName_inj {q1 q2 e : String} {t1 t2 : Timestamp}
    (h : exportName q1 e t1 = exportName q2 e t2) :
    sanitize q1 = sanitize q2 ∧ strftimeYmdHMS t1 = strftimeYmdHMS t2 := by
  have hd := congrArg String.data h
  simp only [exportName, strData_append, List.append_assoc] at hd
  have l1 : (strftimeYmdHMS t1).data.length = 14 := by rw [strftime_data]; rfl
  have l2 : (strftimeYmdHMS t2).data.length = 14 := by rw [strftime_data]; rfl
  have hlen : (sanitize q1).data.length = (sanitize q2).data.length := by
    have hl := congrArg List.length hd
    simp only [List.length_append] at hl
    omega
  obtain ⟨hL, hrest⟩ := List.append_inj hd hlen
  refine ⟨strExt hL, ?_⟩
  have h2 := List.append_cancel_left hrest
  obtain ⟨hT, _⟩ := List.append_inj h2 (by omega)
  exact strExt hT

/-- C8: the generated export path is `output_dir/<sanitized-label>_<timestamp>.<ext>`
with a fourteen-digit year-month-day-hour-minute-second timestamp; paths of
distinct sanitized labels never coincide whatever their timestamps, and
paths of the same label coincide only for the same second. -/
theorem gen_filepath_spec :
    (∀ dir q ext t, dir ≠ "" → endsWithSlash dir = false →
      gen_filepath q dir ext t =
        dir ++ "/" ++ (sanitize q ++ "_" ++ strftimeYmdHMS t ++ "." ++ ext)) ∧
    (∀ t : Timestamp, (strftimeYmdHMS t).length = 14 ∧
      ∀ c ∈ (strftimeYmdHMS t).data, c.isDigit = true) ∧
    (∀ dir q1 q2 ext t1 t2, sanitize q1 ≠ sanitize q2 →
      gen_filepath q1 dir ext t1 ≠ gen_filepath q2 dir ext t2) ∧
    (∀ dir q ext t1 t2, validTs t1 → validTs t2 →
      gen_filepath q dir ext t1 = gen_filepath q dir ext t2 → t1 = t2) := by
  refine ⟨?_, ?_, ?_, ?_⟩
  · intro dir q ext t h0 h1
    exact posixJoin_eq dir _ h0 h1 (exportName_noSlashStart q ext t)
  · intro t
    exact ⟨strftime_length t, strftime_digits t⟩
  · intro dir q1 q2 ext t1 t2 hne h
    exact hne (exportName_inj (posixJoin_cancel (exportName_noSlashStart q1 ext t1)
      (exportName_noSlashStart q2 ext t2) h)).1
  · intro dir q ext t1 t2 hv1 hv2 h
    exact strftime_inj hv1 hv2 (exportName_inj (posixJoin_cancel
      (exportName_noSlashStart q ext t1) (exportName_noSlashStart q ext t2) h)).2

/-- Witness for C8 at concrete directories, labels and timestamps. -/
theorem gen_filepath_spec_witness :
    gen_filepath "a b" "out" "csv" ⟨2024, 1, 2, 3, 4, 5⟩ =
      "out" ++ "/" ++ (sanitize "a b" ++ "_" ++ strftimeYmdHMS ⟨2024, 1, 2, 3, 4, 5⟩ ++ "." ++ "csv") ∧
    (strftimeYmdHMS ⟨2024, 1, 2, 3, 4, 5⟩).length = 14 ∧
    gen_filepath "a" "out" "csv" ⟨2024, 1, 2, 3, 4, 5⟩ ≠
      gen_filepath "b" "out" "csv" ⟨2025, 6, 7, 8, 9, 10⟩ ∧
    (gen_filepath "a" "out" "csv" ⟨2024, 1, 2, 3, 4, 5⟩ =
      gen_filepath "a" "out" "csv" ⟨2024, 1, 2, 3, 4, 6⟩ →
      (⟨2024, 1, 2, 3, 4, 5⟩ : Timestamp) = ⟨2024, 1, 2, 3, 4, 6⟩) := by
  refine ⟨?_, ?_, ?_, ?_⟩
  · exact gen_filepath_spec.1 "out" "a b" "csv" ⟨2024, 1, 2, 3, 4, 5⟩ (by decide) rfl
  · exact (gen_filepath_spec.2.1 ⟨2024, 1, 2, 3, 4, 5⟩).1
  · exact gen_filepath_spec.2.2.1 "out" "a" "b" "csv" ⟨2024, 1, 2, 3, 4, 5⟩
      ⟨2025, 6, 7, 8, 9, 10⟩ (by decide)
  · exact gen_filepath_spec.2.2.2 "out" "a" "csv" ⟨2024, 1, 2, 3, 4, 5⟩
      ⟨2024, 1, 2, 3, 4, 6⟩ (by norm_num [validTs]) (by norm_num [validTs])

/-! ### Directory lemmas -/

lemma strAppend_empty (s : String) : s ++ "" = s := by
  apply strExt
  rw [strData_append]
  have he : "".data = ([] : List Char) := rfl
  rw [he, List.append_nil]

lemma endsWithSlash_append_slash (out : String) : endsWithSlash (out ++ "/") = true := by
  unfold endsWithSlash
  rw [strData_append]
  have hs : "/".data = ['/'] := rfl
  rw [hs, List.getLast?_concat]
  rfl

lemma strip_append_slash (out : String) : stripTrailingSlash (out ++ "/") = out := by
  unfold stripTrailingSlash
  rw [endsWithSlash_append_slash]
  simp only [if_true]
  apply strExt
  show (out ++ "/").data.dropLast = out.data
  rw [strData_append]
  have hs : "/".data = ['/'] := rfl
  rw [hs, List.dropLast_concat]

/-- C9: per-query folder creation is idempotent.  Starting from a state
where the folder is absent, the first call creates it, the second call
finds it, skips creation, leaves the directory state unchanged and
returns the same path, and exactly one directory entry for the label
exists afterwards.  The model is total, matching the source guard that
calls `mkdir` only when `os.path.isdir` is false. -/
theorem gen_query_folder_idem (dirs : List String) (out q : String)
    (h : stripTrailingSlash (posixJoin out (sanitize q)) ∉ dirs) :
    gen_query_folder (gen_query_folder dirs out q).1 out q =
      ((gen_query_folder dirs out q).1, false, (gen_query_folder dirs out q).2.2) ∧
    (gen_query_folder dirs out q).2.1 = true ∧
    (gen_query_folder dirs out q).1.count
      (stripTrailingSlash (posixJoin out (sanitize q))) = 1 := by
  have hde : dirExists dirs (posixJoin out (sanitize q)) = false := by
    simp [dirExists, h]
  have hg : gen_query_folder dirs out q =
      (stripTrailingSlash (posixJoin out (sanitize q)) :: dirs, true,
        posixJoin out (sanitize q)) := by
    simp [gen_query_folder, hde]
  rw [hg]
  refine ⟨?_, rfl, ?_⟩
  · simp [gen_query_folder, dirExists]
  · rw [List.count_cons_self]
    rw [List.count_eq_zero.mpr h]

/-- Witness for C9 at a concrete state and query. -/
theorem gen_query_folder_idem_witness :
    gen_query_folder (gen_query_folder ["out"] "out" "coffee").1 "out" "coffee" =
      ((gen_query_folder ["out"] "out" "coffee").1, false,
        (gen_query_folder ["out"] "out" "coffee").2.2) ∧
    (gen_query_folder ["out"] "out" "coffee").2.1 = true ∧
    (gen_query_folder ["out"] "out" "coffee").1.count
      (stripTrailingSlash (posixJoin "out" (sanitize "coffee"))) = 1 :=
  gen_query_folder_idem ["out"] "out" "coffee" (by decide)

/-- C10: for a query whose sanitized label is empty, the per-query folder
operation joins the empty label under the output directory, producing the
output directory path itself with a trailing slash; since that directory
already exists, no subdirectory is created, and every timeline file path
generated against the returned path lies directly inside the output
directory. -/
theorem gen_query_folder_empty_label (dirs : List String) (out q : String)
    (hq : sanitize q = "") (hmem : out ∈ dirs) (h0 : out ≠ "")
    (h1 : endsWithSlash out = false) :
    gen_query_folder dirs out q = (dirs, false, out ++ "/") ∧
    stripTrailingSlash (out ++ "/") = out ∧
    ∀ kw ext t, gen_filepath kw (out ++ "/") ext t =
      out ++ "/" ++ (sanitize kw ++ "_" ++ strftimeYmdHMS t ++ "." ++ ext) := by
  have hp : posixJoin out (sanitize q) = out ++ "/" := by
    rw [hq]
    rw [posixJoin_eq out "" h0 h1 rfl]
    rw [strAppend_empty]
  refine ⟨?_, strip_append_slash out, ?_⟩
  · simp [gen_query_folder, hp, dirExists, strip_append_slash, hmem]
  · intro kw ext t
    unfold gen_filepath posixJoin
    rw [exportName_noSlashStart kw ext t, endsWithSlash_append_slash]
    simp [exportName]

/-- Witness for C10 at a concrete all-punctuation query. -/
theorem gen_query_folder_empty_label_witness :
    gen_query_folder ["out"] "out" "!!!" = (["out"], false, "out" ++ "/") ∧
    stripTrailingSlash ("out" ++ "/") = "out" ∧
    ∀ kw ext t, gen_filepath kw ("out" ++ "/") ext t =
      "out" ++ "/" ++ (sanitize kw ++ "_" ++ strftimeYmdHMS t ++ "." ++ ext) :=
  gen_query_folder_empty_label ["out"] "out" "!!!" (by decide)
    (List.mem_singleton.mpr rfl) (by decide) rfl

/-! ### Orchestrator lemmas -/

lemma timelineLoop_no_quit (tl : String → StepResult (Option String))
    (l : List KeywordValueEntry) : Event.quit ∉ (timelineLoop tl l).1 := by
  induction l with
  | nil => simp [timelineLoop]
  | cons e rest ih =>
    cases htl : tl e.keyword <;> simp [timelineLoop, htl, ih]

lemma runBody_props (env : RunEnv) (q d : String) :
    Event.quit ∉ (runBody env q d).1 ∧
    (runBody env q d).2 ≠ RunResult.escaped ∧
    (runBody env q d).2 ≠ RunResult.escapedInterrupt := by
  unfold runBody
  cases env.relatedTask with
  | interrupt => simp
  | exn => simp
  | ok p =>
    cases p with
    | none => simp
    | some path =>
      cases parse_csv env.csvRows with
      | error e => simp
      | ok data =>
        by_cases hd : data.isEmpty
        · simp [hd]
        · simp only [hd, Bool.false_eq_true, if_false]
          cases env.jsonOutcome with
          | interrupt =>
            by_cases hb : (gen_query_folder env.dirs d q).2.1 <;> simp [hb]
          | exn =>
            by_cases hb : (gen_query_folder env.dirs d q).2.1 <;> simp [hb]
          | ok u =>
            have hq : Event.quit ∉ (timelineLoop env.timeline data).1 :=
              timelineLoop_no_quit env.timeline data
            cases htl : timelineLoop env.timeline data with
            | mk tevs tr =>
              rw [htl] at hq
              simp only at hq
              cases tr <;>
                (by_cases hb : (gen_query_folder env.dirs d q).2.1 <;> simp [hb, hq])

/-- Run environment witnessing the cleanup guarantee inside the protected
block. -/
def envC6ok : RunEnv :=
  ⟨.ok (), .ok (some "f"), [["RISING"], ["dog", "100"], []], ⟨2024, 1, 2, 3, 4, 5⟩,
   .ok (), fun _ => .ok none, ["out"]⟩

/-- Run environment whose window maximization raises. -/
def envC6 : RunEnv :=
  ⟨.exn, .ok (some "f"), [["RISING"], ["dog", "100"], []], ⟨2024, 1, 2, 3, 4, 5⟩,
   .ok (), fun _ => .ok none, ["out"]⟩

/-- C6 counterexample: an exception raised by `maximize_window` occurs
after the browser session is created but before the protected block is
entered, so it escapes `run` unhandled and `driver.quit()` never runs. -/
theorem run_cleanup_cex :
    (run envC6 "coffee" "out").1.count Event.quit = 0 ∧
    (run envC6 "coffee" "out").2 = RunResult.escaped :=
  ⟨rfl, rfl⟩

/-- C6 (amended): once the protected block of `run` is entered (window
maximization returned normally), every exit path — normal completion,
empty-data abort, a caught exception, or a caught operator interruption —
releases the browser session exactly once and no failure escapes `run`. -/
theorem run_cleanup (env : RunEnv) (q dir : String) (h : env.maximize = .ok ()) :
    (run env q dir).1.count Event.quit = 1 ∧
    (run env q dir).2 ≠ RunResult.escaped ∧
    (run env q dir).2 ≠ RunResult.escapedInterrupt := by
  obtain ⟨h1, h2, h3⟩ := runBody_props env q dir
  simp only [run, h]
  refine ⟨?_, h2, h3⟩
  rw [List.count_append, List.count_eq_zero.mpr h1]
  rfl

/-- Witness for C6 at a concrete environment that completes the protected
block. -/
theorem run_cleanup_witness :
    (run envC6ok "coffee" "out").1.count Event.quit = 1 ∧
    (run envC6ok "coffee" "out").2 ≠ RunResult.escaped ∧
    (run envC6ok "coffee" "out").2 ≠ RunResult.escapedInterrupt :=
  run_cleanup envC6ok "coffee" "out" rfl

/-- C7: when the parsed entry sequence is empty, `run` prints the
error-retrieving-data message and returns before any later effect: the
whole trace is that message followed by the session release — no
directory creation, no JSON write, and no timeline attempt. -/
theorem run_empty_data (env : RunEnv) (q dir : String) (hm : env.maximize = .ok ())
    (hr : ∃ p, env.relatedTask = .ok (some p))
    (hp : parse_csv env.csvRows = .ok []) :
    run env q dir = ([Event.msg "\nError retrieving data...", Event.quit], .emptyData) := by
  obtain ⟨p, hrp⟩ := hr
  simp [run, runBody, hm, hrp, hp]

/-- Run environment whose related-queries export parses to no entries. -/
def envC7 : RunEnv :=
  ⟨.ok (), .ok (some "f"), [["TOP"], ["x", "1"]], ⟨2024, 1, 2, 3, 4, 5⟩,
   .ok (), fun _ => .ok none, ["out"]⟩

/-- Witness for C7 at a concrete marker-free export. -/
theorem run_empty_data_witness :
    run envC7 "coffee" "out" =
      ([Event.msg "\nError retrieving data...", Event.quit], .emptyData) :=
  run_empty_data envC7 "coffee" "out" rfl ⟨"f", rfl⟩ rfl

/-- Timeline oracle where the export of `dog` returns no result. -/
def tlC3 : String → StepResult (Option String) :=
  fun k => if k == "dog" then .ok none else .exn

/-- Run environment where the timeline export of `dog` raises because the
export control never appears. -/
def envC3 : RunEnv :=
  ⟨.ok (), .ok (some "f"), [["RISING"], ["dog", "100"], ["cat", "90"], []],
   ⟨2024, 1, 2, 3, 4, 5⟩, .ok (),
   fun k => if k == "dog" then .exn else .ok (some "p"), ["out"]⟩

/-- C3 counterexample: with two parsed keywords `dog` and `cat`, an
export-control timeout while exporting `dog` raises out of the timeline
task; the per-keyword loop stops, `cat` is never attempted, and the run
ends on the caught-exception path instead of continuing. -/
theorem timeline_abort_cex :
    Event.timelineAttempt "dog" ∈ (run envC3 "coffee" "out").1 ∧
    Event.timelineAttempt "cat" ∉ (run envC3 "coffee" "out").1 ∧
    (run envC3 "coffee" "out").2 = RunResult.taskError := by
  decide

/-- C3 (amended): a timeline task that fails by retry exhaustion returns
no result and the per-keyword loop continues with the remaining entries
unchanged; a timeline task that raises (export control missing) stops the
loop at that entry and propagates the exception. -/
theorem timeline_failure_modes (tl : String → StepResult (Option String))
    (e : KeywordValueEntry) (rest : List KeywordValueEntry) :
    (tl e.keyword = .ok none →
      timelineLoop tl (e :: rest) =
        (Event.timelineAttempt e.keyword :: (timelineLoop tl rest).1,
         (timelineLoop tl rest).2)) ∧
    (tl e.keyword = .exn →
      timelineLoop tl (e :: rest) = ([Event.timelineAttempt e.keyword], .exn)) := by
  constructor
  · intro h
    simp [timelineLoop, h]
  · intro h
    simp [timelineLoop, h]

/-- Witness for C3 at a concrete oracle where the first export returns no
result and the loop proceeds to the rest. -/
theorem timeline_failure_modes_witness :
    timelineLoop tlC3 [⟨"dog", "1"⟩, ⟨"cat", "2"⟩] =
      (Event.timelineAttempt "dog" :: (timelineLoop tlC3 [⟨"cat", "2"⟩]).1,
       (timelineLoop tlC3 [⟨"cat", "2"⟩]).2) :=
  (timeline_failure_modes tlC3 ⟨"dog", "1"⟩ [⟨"cat", "2"⟩]).1 (by decide)
